import Mathlib

/-!
Shallow embedding of `src/src-tauri/src/lib.rs` (NekoTick drag-overlay
controller) and proofs about its three Tauri commands:
`create_drag_window`, `update_drag_window_position`, `destroy_drag_window`.

Modelling conventions:
* The host windowing system's registry is a list of windows, each carrying a
  label; `get_webview_window` is lookup by label, `WebviewWindowBuilder.build`
  refuses a duplicate label (Tauri behaviour), window mutations replace the
  labelled entry in place.
* `f64` coordinates are modelled as `ℚ` (the operations used — subtracting 20
  and halving — are exact, and the spec states the positioning law in exact
  arithmetic). The `u32` components of a `PhysicalSize` are `Nat`.
* Host-call outcomes that the code observes through `Result` are supplied by
  an environment record per command invocation: `none` means the host call
  succeeded, `some e` means it failed with diagnostic text `e` (the code calls
  `.map_err(|e| e.to_string())`, so the model stores the stringified text
  directly). `outer_size` similarly is host-reported data.
-/

/-- The fixed window label used by all three commands. -/
def dragLabel : String := "drag-overlay"

/-- State of one webview window as configured by the builder chain in
`create_drag_window` and mutated by the later host calls. -/
structure WindowState where
  label : String
  title : String
  innerSize : ℚ × ℚ
  pos : ℚ × ℚ
  decorations : Bool
  transparent : Bool
  shadow : Bool
  backgroundColor : Nat × Nat × Nat × Nat
  alwaysOnTop : Bool
  skipTaskbar : Bool
  resizable : Bool
  focused : Bool
  visible : Bool
  ignoreCursorEvents : Bool
  injectedScript : Option String
  deriving DecidableEq

/-- The host window registry: all live windows, in creation order. -/
abbrev Registry := List WindowState

/-- Model of `app.get_webview_window(label)`: lookup by label. -/
def getWebviewWindow (reg : Registry) (label : String) : Option WindowState :=
  reg.find? (fun w => w.label == label)

/-- Model of `window.destroy()` succeeding: the labelled window leaves the
registry. -/
def removeWindow (reg : Registry) (label : String) : Registry :=
  reg.filter (fun w => !(w.label == label))

/-- Replace the labelled window's state in the registry (models an in-place
mutation of the live window by a host call). -/
def setWindow (reg : Registry) (label : String) (w : WindowState) : Registry :=
  reg.map (fun v => if v.label == label then w else v)

/-- Number of live windows carrying the overlay label. -/
def overlayCount (reg : Registry) : Nat :=
  (reg.filter (fun w => w.label == dragLabel)).length

/-- The HTML template of `create_drag_window` up to the point where the
caller-supplied `content` is spliced in by `format!` (the `{}` placeholder
sits inside `<span class="content">`). Doubled braces in the Rust template
denote literal braces, written here as escapes. -/
def htmlBefore : String :=
  "<!DOCTYPE html>\n" ++
  "<html style=\"background:transparent!important\">\n" ++
  "<head>\n" ++
  "<style>\n" ++
  "*\x7bmargin:0;padding:0;box-sizing:border-box\x7d\n" ++
  "html,body\x7bbackground:transparent!important;overflow:hidden;width:100%;height:100%\x7d\n" ++
  "body\x7bfont-family:system-ui,-apple-system,sans-serif;display:flex\x7d\n" ++
  ".card\x7b\n" ++
  "  background:#fff;\n" ++
  "  border:1px solid #e5e5e5;\n" ++
  "  border-radius:4px;\n" ++
  "  padding:8px 12px;\n" ++
  "  display:flex;\n" ++
  "  align-items:center;\n" ++
  "  gap:8px;\n" ++
  "  font-size:14px;\n" ++
  "  color:#18181b;\n" ++
  "  width:100%;\n" ++
  "  height:100%;\n" ++
  "\x7d\n" ++
  ".grip\x7bcolor:#a1a1aa\x7d\n" ++
  ".checkbox\x7bwidth:16px;height:16px;border:1px solid #a1a1aa;border-radius:3px;flex-shrink:0\x7d\n" ++
  ".content\x7bflex:1;overflow:hidden;text-overflow:ellipsis;white-space:nowrap\x7d\n" ++
  "</style>\n" ++
  "</head>\n" ++
  "<body style=\"background:transparent!important\">\n" ++
  "<div class=\"card\">\n" ++
  "<div class=\"grip\">⋮⋮</div>\n" ++
  "<div class=\"checkbox\"></div>\n" ++
  "<span class=\"content\">"

/-- The HTML template after the `{}` placeholder. -/
def htmlAfter : String :=
  "</span>\n" ++
  "</div>\n" ++
  "</body>\n" ++
  "</html>"

/-- Model of the `let html = format!(r#"..."#, content)` in
`create_drag_window`: the caller's text is spliced verbatim between the two
template halves; no escaping of any kind is applied to `content`. -/
def dragHtml (content : String) : String :=
  htmlBefore ++ content ++ htmlAfter

/-- Model of the script passed to `window.eval`:
`format!(r#"document.write(`{}`); document.close();"#, html.replace('`', "\\`"))`. -/
def evalScript (html : String) : String :=
  "document.write(`" ++ html.replace "`" "\\`" ++ "`); document.close();"

/-- The diagnostic Tauri produces when `WebviewWindowBuilder::build` is asked
for a label that is already live (the host refuses the creation). -/
def dupLabelErr : String := "a webview with label `drag-overlay` already exists"

/-- The window exactly as the builder chain in `create_drag_window` configures
it: title `""`, inner size `(width, height)`, position
`(x - 20, y - height/2)`, no decorations, transparent, no shadow, background
colour `(0,0,0,0)`, always on top, skipped in the taskbar, non-resizable,
unfocused, and — crucially — still invisible. -/
def builtWindow (x y width height : ℚ) : WindowState where
  label := dragLabel
  title := ""
  innerSize := (width, height)
  pos := (x - 20, y - height / 2)
  decorations := false
  transparent := true
  shadow := false
  backgroundColor := (0, 0, 0, 0)
  alwaysOnTop := true
  skipTaskbar := true
  resizable := false
  focused := false
  visible := false
  ignoreCursorEvents := false
  injectedScript := none

/-- Host-call outcomes for one `create_drag_window` invocation.
`preDestroyOk` is the outcome of the (ignored) `existing.destroy()`;
the four `Option String` fields are the outcomes of `build()`,
`set_ignore_cursor_events(true)`, `eval(..)` and `show()` in program order
(`none` = `Ok`, `some e` = `Err` with text `e`). -/
structure CreateEnv where
  preDestroyOk : Bool
  buildResult : Option String
  ignoreCursorResult : Option String
  evalResult : Option String
  showResult : Option String
  deriving DecidableEq

/-- Model of the command `create_drag_window(app, content, x, y, width,
height)`. Follows `src/src-tauri/src/lib.rs` line by line: close any existing
`"drag-overlay"` window ignoring the result; build the hidden configured
window (the host refuses a duplicate label); then
`set_ignore_cursor_events(true)`, `eval` of the content-injection script, and
`show()`, each early-returning its stringified error via `?`. -/
def create_drag_window (env : CreateEnv) (reg : Registry) (content : String)
    (x y width height : ℚ) : Except String Unit × Registry :=
  let reg1 :=
    match getWebviewWindow reg dragLabel with
    | some _ => if env.preDestroyOk then removeWindow reg dragLabel else reg
    | none => reg
  match getWebviewWindow reg1 dragLabel with
  | some _ => (Except.error dupLabelErr, reg1)
  | none =>
    match env.buildResult with
    | some e => (Except.error e, reg1)
    | none =>
      let w0 := builtWindow x y width height
      let reg2 := reg1 ++ [w0]
      match env.ignoreCursorResult with
      | some e => (Except.error e, reg2)
      | none =>
        let w1 := { w0 with ignoreCursorEvents := true }
        let reg3 := setWindow reg2 dragLabel w1
        match env.evalResult with
        | some e => (Except.error e, reg3)
        | none =>
          let w2 := { w1 with injectedScript := some (evalScript (dragHtml content)) }
          let reg4 := setWindow reg3 dragLabel w2
          match env.showResult with
          | some e => (Except.error e, reg4)
          | none => (Except.ok (), setWindow reg4 dragLabel { w2 with visible := true })

/-- The overlay window after `set_ignore_cursor_events(true)` succeeded. -/
def cursorWindow (x y width height : ℚ) : WindowState :=
  { builtWindow x y width height with ignoreCursorEvents := true }

/-- The overlay window after the content-injection `eval` also succeeded. -/
def injectedWindow (content : String) (x y width height : ℚ) : WindowState :=
  { cursorWindow x y width height with
      injectedScript := some (evalScript (dragHtml content)) }

/-- The overlay window as it stands after a fully successful
`create_drag_window(content, x, y, width, height)`. -/
def finalWindow (content : String) (x y width height : ℚ) : WindowState :=
  { injectedWindow content x y width height with visible := true }

/-- Host-call outcomes for one `update_drag_window_position` invocation:
`outerSize` is what `window.outer_size()` reports (`none` = `Err`, forcing the
`unwrap_or(PhysicalSize::new(0, 36))` fallback), `moveResult` the outcome of
`set_position`. -/
structure MoveEnv where
  outerSize : Option (Nat × Nat)
  moveResult : Option String
  deriving DecidableEq

/-- Model of the command `update_drag_window_position(app, x, y)`: if no
`"drag-overlay"` window exists this is a successful no-op; otherwise read the
outer size with fallback `(0, 36)` and move the window to
`(x - 20, y - height/2)`. -/
def update_drag_window_position (env : MoveEnv) (reg : Registry)
    (x y : ℚ) : Except String Unit × Registry :=
  match getWebviewWindow reg dragLabel with
  | none => (Except.ok (), reg)
  | some w =>
    let size := env.outerSize.getD (0, 36)
    let half_height : ℚ := (size.2 : ℚ) / 2
    match env.moveResult with
    | some e => (Except.error e, reg)
    | none =>
      (Except.ok (), setWindow reg dragLabel { w with pos := (x - 20, y - half_height) })

/-- Host-call outcome for one `destroy_drag_window` invocation: the result of
`window.destroy()` on the existing window. -/
structure DestroyEnv where
  destroyResult : Option String
  deriving DecidableEq

/-- Model of the command `destroy_drag_window(app)`: if a `"drag-overlay"`
window exists, destroy it and — note — propagate a failure via
`.map_err(|e| e.to_string())?`; otherwise succeed without touching anything. -/
def destroy_drag_window (env : DestroyEnv) (reg : Registry) :
    Except String Unit × Registry :=
  match getWebviewWindow reg dragLabel with
  | none => (Except.ok (), reg)
  | some _ =>
    match env.destroyResult with
    | some e => (Except.error e, reg)
    | none => (Except.ok (), removeWindow reg dragLabel)

/-- One `create_drag_window` call: its host environment and its arguments. -/
structure CreateCall where
  env : CreateEnv
  content : String
  x : ℚ
  y : ℚ
  width : ℚ
  height : ℚ
  deriving DecidableEq

/-- Registry left behind by one call of a sequence. -/
def runCreate (reg : Registry) (c : CreateCall) : Registry :=
  (create_drag_window c.env reg c.content c.x c.y c.width c.height).2

/-- Registry left behind by a sequence of `create_drag_window` calls. -/
def runCreates (reg : Registry) (calls : List CreateCall) : Registry :=
  calls.foldl runCreate reg

/-! ### Registry helper lemmas -/

lemma getWebviewWindow_eq_none_iff (reg : Registry) (l : String) :
    getWebviewWindow reg l = none ↔ ∀ w ∈ reg, (w.label == l) = false := by
  simp [getWebviewWindow, List.find?_eq_none]

lemma getWebviewWindow_removeWindow (reg : Registry) (l : String) :
    getWebviewWindow (removeWindow reg l) l = none := by
  rw [getWebviewWindow_eq_none_iff]
  intro w hw
  have := List.of_mem_filter hw
  simpa using this

lemma overlayCount_eq_zero_of_none (reg : Registry)
    (h : getWebviewWindow reg dragLabel = none) : overlayCount reg = 0 := by
  rw [getWebviewWindow_eq_none_iff] at h
  have : reg.filter (fun w => w.label == dragLabel) = [] := by
    rw [List.filter_eq_nil_iff]
    intro w hw
    simpa using h w hw
  simp [overlayCount, this]

lemma overlayCount_removeWindow (reg : Registry) :
    overlayCount (removeWindow reg dragLabel) = 0 :=
  overlayCount_eq_zero_of_none _ (getWebviewWindow_removeWindow reg dragLabel)

lemma setWindow_eq_of_forall (reg : Registry) (l : String) (w : WindowState)
    (h : ∀ v ∈ reg, (v.label == l) = false) :
    setWindow reg l w = reg := by
  induction reg with
  | nil => rfl
  | cons a t ih =>
    have ha := h a (by simp)
    have ih2 := ih (fun v hv => h v (by simp [hv]))
    simp only [setWindow, List.map_cons] at ih2 ⊢
    rw [if_neg (by simp [ha]), ih2]

lemma setWindow_of_none (reg : Registry) (w : WindowState)
    (h : getWebviewWindow reg dragLabel = none) :
    setWindow reg dragLabel w = reg := by
  rw [getWebviewWindow_eq_none_iff] at h
  exact setWindow_eq_of_forall reg dragLabel w h

lemma getWebviewWindow_append_single (reg : Registry) (w : WindowState)
    (h : getWebviewWindow reg dragLabel = none) (hw : w.label = dragLabel) :
    getWebviewWindow (reg ++ [w]) dragLabel = some w := by
  unfold getWebviewWindow at *
  rw [List.find?_append, h]
  simp [hw]

lemma setWindow_append (reg1 reg2 : Registry) (l : String) (w : WindowState) :
    setWindow (reg1 ++ reg2) l w = setWindow reg1 l w ++ setWindow reg2 l w := by
  simp [setWindow]

lemma setWindow_append_single (reg : Registry) (w0 w : WindowState)
    (h : getWebviewWindow reg dragLabel = none) (hw0 : w0.label = dragLabel) :
    setWindow (reg ++ [w0]) dragLabel w = reg ++ [w] := by
  rw [setWindow_append, setWindow_of_none reg w h]
  simp [setWindow, hw0]

lemma overlayCount_append (reg1 reg2 : Registry) :
    overlayCount (reg1 ++ reg2) = overlayCount reg1 + overlayCount reg2 := by
  simp [overlayCount, List.filter_append]

lemma overlayCount_single (w : WindowState) (hw : w.label = dragLabel) :
    overlayCount [w] = 1 := by
  simp [overlayCount, hw]

lemma builtWindow_label (x y width height : ℚ) :
    (builtWindow x y width height).label = dragLabel := rfl

lemma getWebviewWindow_setWindow_some (reg : Registry) (w v : WindowState)
    (hl : getWebviewWindow reg dragLabel = some v) (hw : w.label = dragLabel) :
    getWebviewWindow (setWindow reg dragLabel w) dragLabel = some w := by
  induction reg with
  | nil => simp [getWebviewWindow] at hl
  | cons a t ih =>
    by_cases ha : a.label = dragLabel
    · have hs : setWindow (a :: t) dragLabel w = w :: setWindow t dragLabel w := by
        simp [setWindow, ha]
      rw [hs]
      unfold getWebviewWindow
      rw [List.find?_cons_of_pos _ (by simp [hw])]
    · have hl' : getWebviewWindow t dragLabel = some v := by
        unfold getWebviewWindow at hl
        rwa [List.find?_cons_of_neg _ (by simp [ha])] at hl
      have hs : setWindow (a :: t) dragLabel w = a :: setWindow t dragLabel w := by
        simp [setWindow, ha]
      rw [hs]
      unfold getWebviewWindow
      rw [List.find?_cons_of_neg _ (by simp [ha])]
      exact ih hl'

/-! ### Branch characterizations of `create_drag_window` -/

lemma create_of_predestroy (env : CreateEnv) (reg : Registry) (content : String)
    (x y width height : ℚ) (w : WindowState)
    (hl : getWebviewWindow reg dragLabel = some w) (hp : env.preDestroyOk = true) :
    create_drag_window env reg content x y width height
      = create_drag_window env (removeWindow reg dragLabel) content x y width height := by
  simp only [create_drag_window, hl, hp, getWebviewWindow_removeWindow, if_true]

lemma create_dup (env : CreateEnv) (reg : Registry) (content : String)
    (x y width height : ℚ) (w : WindowState)
    (hl : getWebviewWindow reg dragLabel = some w) (hp : env.preDestroyOk = false) :
    create_drag_window env reg content x y width height
      = (Except.error dupLabelErr, reg) := by
  simp [create_drag_window, hl, hp]

lemma create_build_err (env : CreateEnv) (reg : Registry) (content : String)
    (x y width height : ℚ) (e : String)
    (h : getWebviewWindow reg dragLabel = none) (hb : env.buildResult = some e) :
    create_drag_window env reg content x y width height = (Except.error e, reg) := by
  simp only [create_drag_window, h, hb]

lemma create_ignore_err (env : CreateEnv) (reg : Registry) (content : String)
    (x y width height : ℚ) (e : String)
    (h : getWebviewWindow reg dragLabel = none) (hb : env.buildResult = none)
    (hi : env.ignoreCursorResult = some e) :
    create_drag_window env reg content x y width height
      = (Except.error e, reg ++ [builtWindow x y width height]) := by
  simp only [create_drag_window, h, hb, hi]

lemma create_eval_err (env : CreateEnv) (reg : Registry) (content : String)
    (x y width height : ℚ) (e : String)
    (h : getWebviewWindow reg dragLabel = none) (hb : env.buildResult = none)
    (hi : env.ignoreCursorResult = none) (he : env.evalResult = some e) :
    create_drag_window env reg content x y width height
      = (Except.error e, reg ++ [cursorWindow x y width height]) := by
  simp only [create_drag_window, h, hb, hi, he]
  rw [setWindow_append_single reg _ _ h (builtWindow_label x y width height)]
  rfl

lemma create_show_err (env : CreateEnv) (reg : Registry) (content : String)
    (x y width height : ℚ) (e : String)
    (h : getWebviewWindow reg dragLabel = none) (hb : env.buildResult = none)
    (hi : env.ignoreCursorResult = none) (he : env.evalResult = none)
    (hs : env.showResult = some e) :
    create_drag_window env reg content x y width height
      = (Except.error e, reg ++ [injectedWindow content x y width height]) := by
  simp only [create_drag_window, h, hb, hi, he, hs]
  rw [setWindow_append_single reg _ _ h (builtWindow_label x y width height),
    setWindow_append_single reg _ _ h (by rfl)]
  rfl

lemma create_ok (env : CreateEnv) (reg : Registry) (content : String)
    (x y width height : ℚ)
    (h : getWebviewWindow reg dragLabel = none) (hb : env.buildResult = none)
    (hi : env.ignoreCursorResult = none) (he : env.evalResult = none)
    (hs : env.showResult = none) :
    create_drag_window env reg content x y width height
      = (Except.ok (), reg ++ [finalWindow content x y width height]) := by
  simp only [create_drag_window, h, hb, hi, he, hs]
  rw [setWindow_append_single reg _ _ h (builtWindow_label x y width height),
    setWindow_append_single reg _ _ h (by rfl),
    setWindow_append_single reg _ _ h (by rfl)]
  rfl

lemma cursorWindow_label (x y width height : ℚ) :
    (cursorWindow x y width height).label = dragLabel := rfl

lemma injectedWindow_label (content : String) (x y width height : ℚ) :
    (injectedWindow content x y width height).label = dragLabel := rfl

lemma finalWindow_label (content : String) (x y width height : ℚ) :
    (finalWindow content x y width height).label = dragLabel := rfl

lemma create_reduce (env : CreateEnv) (reg : Registry) (content : String)
    (x y width height : ℚ)
    (hpre : getWebviewWindow reg dragLabel = none ∨ env.preDestroyOk = true) :
    ∃ reg1, getWebviewWindow reg1 dragLabel = none ∧
      create_drag_window env reg content x y width height
        = create_drag_window env reg1 content x y width height := by
  cases hl : getWebviewWindow reg dragLabel with
  | none => exact ⟨reg, hl, rfl⟩
  | some w =>
    rcases hpre with h | hp
    · rw [hl] at h; cases h
    · exact ⟨removeWindow reg dragLabel, getWebviewWindow_removeWindow reg dragLabel,
        create_of_predestroy env reg content x y width height w hl hp⟩

lemma create_ok_eq_of_none (env : CreateEnv) (reg : Registry) (content : String)
    (x y width height : ℚ)
    (h : getWebviewWindow reg dragLabel = none)
    (hok : (create_drag_window env reg content x y width height).1 = Except.ok ()) :
    create_drag_window env reg content x y width height
      = (Except.ok (), reg ++ [finalWindow content x y width height]) := by
  cases hb : env.buildResult with
  | some e => rw [create_build_err env reg content x y width height e h hb] at hok; cases hok
  | none =>
  cases hi : env.ignoreCursorResult with
  | some e => rw [create_ignore_err env reg content x y width height e h hb hi] at hok; cases hok
  | none =>
  cases he : env.evalResult with
  | some e => rw [create_eval_err env reg content x y width height e h hb hi he] at hok; cases hok
  | none =>
  cases hs : env.showResult with
  | some e => rw [create_show_err env reg content x y width height e h hb hi he hs] at hok; cases hok
  | none => exact create_ok env reg content x y width height h hb hi he hs

lemma create_ok_eq (env : CreateEnv) (reg : Registry) (content : String)
    (x y width height : ℚ)
    (hok : (create_drag_window env reg content x y width height).1 = Except.ok ()) :
    ∃ reg1, getWebviewWindow reg1 dragLabel = none ∧
      create_drag_window env reg content x y width height
        = (Except.ok (), reg1 ++ [finalWindow content x y width height]) := by
  cases hl : getWebviewWindow reg dragLabel with
  | none =>
    exact ⟨reg, hl, create_ok_eq_of_none env reg content x y width height hl hok⟩
  | some w =>
    cases hp : env.preDestroyOk with
    | false =>
      rw [create_dup env reg content x y width height w hl hp] at hok
      cases hok
    | true =>
      have hred := create_of_predestroy env reg content x y width height w hl hp
      rw [hred] at hok
      refine ⟨removeWindow reg dragLabel, getWebviewWindow_removeWindow reg dragLabel, ?_⟩
      rw [hred]
      exact create_ok_eq_of_none env (removeWindow reg dragLabel) content x y width height
        (getWebviewWindow_removeWindow reg dragLabel) hok

lemma create_ok_state (env : CreateEnv) (reg : Registry) (content : String)
    (x y width height : ℚ)
    (hok : (create_drag_window env reg content x y width height).1 = Except.ok ()) :
    getWebviewWindow (create_drag_window env reg content x y width height).2 dragLabel
        = some (finalWindow content x y width height) ∧
      overlayCount (create_drag_window env reg content x y width height).2 = 1 := by
  obtain ⟨reg1, h1, heq⟩ := create_ok_eq env reg content x y width height hok
  rw [heq]
  constructor
  · exact getWebviewWindow_append_single reg1 _ h1 (finalWindow_label content x y width height)
  · rw [overlayCount_append, overlayCount_eq_zero_of_none reg1 h1,
      overlayCount_single _ (finalWindow_label content x y width height)]

lemma overlayCount_create_le_of_none (env : CreateEnv) (reg : Registry)
    (content : String) (x y width height : ℚ)
    (h : getWebviewWindow reg dragLabel = none) :
    overlayCount (create_drag_window env reg content x y width height).2 ≤ 1 := by
  have h0 : overlayCount reg = 0 := overlayCount_eq_zero_of_none reg h
  cases hb : env.buildResult with
  | some e =>
    rw [create_build_err env reg content x y width height e h hb]
    simp [h0]
  | none =>
  cases hi : env.ignoreCursorResult with
  | some e =>
    rw [create_ignore_err env reg content x y width height e h hb hi]
    simp [overlayCount_append, h0, overlayCount_single _ (builtWindow_label x y width height)]
  | none =>
  cases he : env.evalResult with
  | some e =>
    rw [create_eval_err env reg content x y width height e h hb hi he]
    simp [overlayCount_append, h0, overlayCount_single _ (cursorWindow_label x y width height)]
  | none =>
  cases hs : env.showResult with
  | some e =>
    rw [create_show_err env reg content x y width height e h hb hi he hs]
    simp [overlayCount_append, h0,
      overlayCount_single _ (injectedWindow_label content x y width height)]
  | none =>
    rw [create_ok env reg content x y width height h hb hi he hs]
    simp [overlayCount_append, h0,
      overlayCount_single _ (finalWindow_label content x y width height)]

lemma overlayCount_create_le (env : CreateEnv) (reg : Registry) (content : String)
    (x y width height : ℚ) (hc : overlayCount reg ≤ 1) :
    overlayCount (create_drag_window env reg content x y width height).2 ≤ 1 := by
  cases hl : getWebviewWindow reg dragLabel with
  | none => exact overlayCount_create_le_of_none env reg content x y width height hl
  | some w =>
    cases hp : env.preDestroyOk with
    | true =>
      rw [create_of_predestroy env reg content x y width height w hl hp]
      exact overlayCount_create_le_of_none env _ content x y width height
        (getWebviewWindow_removeWindow reg dragLabel)
    | false =>
      rw [create_dup env reg content x y width height w hl hp]
      exact hc

lemma overlayCount_runCreates_le (calls : List CreateCall) (reg : Registry)
    (hc : overlayCount reg ≤ 1) :
    overlayCount (runCreates reg calls) ≤ 1 := by
  induction calls generalizing reg with
  | nil => exact hc
  | cons c cs ih =>
    exact ih _ (overlayCount_create_le c.env reg c.content c.x c.y c.width c.height hc)

/-! ### Branch characterizations of the other two commands -/

lemma label_of_lookup (reg : Registry) (l : String) (w : WindowState)
    (hl : getWebviewWindow reg l = some w) : w.label = l := by
  have := List.find?_some hl
  simpa using this

lemma update_none (env : MoveEnv) (reg : Registry) (x y : ℚ)
    (h : getWebviewWindow reg dragLabel = none) :
    update_drag_window_position env reg x y = (Except.ok (), reg) := by
  simp only [update_drag_window_position, h]

lemma update_err (env : MoveEnv) (reg : Registry) (x y : ℚ) (w : WindowState) (e : String)
    (hl : getWebviewWindow reg dragLabel = some w) (hm : env.moveResult = some e) :
    update_drag_window_position env reg x y = (Except.error e, reg) := by
  simp only [update_drag_window_position, hl, hm]

lemma update_ok (env : MoveEnv) (reg : Registry) (x y : ℚ) (w : WindowState)
    (hl : getWebviewWindow reg dragLabel = some w) (hm : env.moveResult = none) :
    update_drag_window_position env reg x y
      = (Except.ok (), setWindow reg dragLabel
          { w with pos := (x - 20, y - ((env.outerSize.getD (0, 36)).2 : ℚ) / 2) }) := by
  simp only [update_drag_window_position, hl, hm]

lemma destroy_none (env : DestroyEnv) (reg : Registry)
    (h : getWebviewWindow reg dragLabel = none) :
    destroy_drag_window env reg = (Except.ok (), reg) := by
  simp only [destroy_drag_window, h]

lemma destroy_err (env : DestroyEnv) (reg : Registry) (w : WindowState) (e : String)
    (hl : getWebviewWindow reg dragLabel = some w) (he : env.destroyResult = some e) :
    destroy_drag_window env reg = (Except.error e, reg) := by
  simp only [destroy_drag_window, hl, he]

lemma destroy_ok (env : DestroyEnv) (reg : Registry) (w : WindowState)
    (hl : getWebviewWindow reg dragLabel = some w) (he : env.destroyResult = none) :
    destroy_drag_window env reg = (Except.ok (), removeWindow reg dragLabel) := by
  simp only [destroy_drag_window, hl, he]

lemma forall_label_false_of_count_zero (reg : Registry)
    (h : overlayCount reg = 0) : ∀ v ∈ reg, (v.label == dragLabel) = false := by
  unfold overlayCount at h
  rw [List.length_eq_zero] at h
  intro v hv
  by_contra hx
  have hmem : v ∈ reg.filter (fun w => w.label == dragLabel) := by
    rw [List.mem_filter]
    exact ⟨hv, by simpa using hx⟩
  rw [h] at hmem
  cases hmem

lemma setWindow_self (reg : Registry) (w : WindowState)
    (hc : overlayCount reg ≤ 1) (hl : getWebviewWindow reg dragLabel = some w) :
    setWindow reg dragLabel w = reg := by
  induction reg with
  | nil => cases hl
  | cons a t ih =>
    by_cases ha : a.label = dragLabel
    · have hwa : w = a := by
        unfold getWebviewWindow at hl
        rw [List.find?_cons_of_pos _ (by simp [ha])] at hl
        exact (Option.some.injEq _ _ ▸ hl.symm)
      have hct : overlayCount t = 0 := by
        have : overlayCount (a :: t) = 1 + overlayCount t := by
          have : (a :: t) = [a] ++ t := rfl
          rw [this, overlayCount_append, overlayCount_single a ha]
        omega
      have hs : setWindow (a :: t) dragLabel w = w :: setWindow t dragLabel w := by
        simp [setWindow, ha]
      rw [hs, setWindow_eq_of_forall t dragLabel w (forall_label_false_of_count_zero t hct), hwa]
    · have hl' : getWebviewWindow t dragLabel = some w := by
        unfold getWebviewWindow at hl
        rwa [List.find?_cons_of_neg _ (by simp [ha])] at hl
      have hct : overlayCount t ≤ 1 := by
        have : overlayCount (a :: t) = overlayCount t := by
          unfold overlayCount
          rw [List.filter_cons_of_neg (by simp [ha])]
        omega
      have hs : setWindow (a :: t) dragLabel w = a :: setWindow t dragLabel w := by
        simp [setWindow, ha]
      rw [hs, ih hct hl']

lemma destroy_twice (env : DestroyEnv) (reg : Registry) :
    destroy_drag_window env (destroy_drag_window env reg).2 = destroy_drag_window env reg := by
  cases hl : getWebviewWindow reg dragLabel with
  | none => rw [destroy_none env reg hl]; exact destroy_none env reg hl
  | some w =>
    cases he : env.destroyResult with
    | some e =>
      rw [destroy_err env reg w e hl he]
      exact destroy_err env reg w e hl he
    | none =>
      rw [destroy_ok env reg w hl he]
      rw [destroy_none env _ (getWebviewWindow_removeWindow reg dragLabel)]

/-! ### Claim theorems -/

/-- C2, counterexample: `destroy_drag_window` does surface a teardown failure.
With one overlay window live and the host rejecting `window.destroy()` with
diagnostic text `"destroy failed"`, the command returns that error to the
caller instead of success, refuting "the operation's result is always
success". -/
theorem c2_counterexample :
    (destroy_drag_window ⟨some "destroy failed"⟩ [builtWindow 0 0 100 36]).1
      = Except.error "destroy failed" := rfl

/-- C2 (amended): `destroy_drag_window` returns success whenever no overlay
window exists; but when an overlay window exists and the underlying teardown
fails, the failure is surfaced to the caller as that error (the code
propagates it with `.map_err(|e| e.to_string())?`), not swallowed. When the
teardown succeeds the window is removed and success is returned. -/
theorem c2_destroy_error_surfaced (env : DestroyEnv) (reg : Registry) :
    (getWebviewWindow reg dragLabel = none →
      destroy_drag_window env reg = (Except.ok (), reg)) ∧
    (∀ w e, getWebviewWindow reg dragLabel = some w → env.destroyResult = some e →
      (destroy_drag_window env reg).1 = Except.error e) ∧
    (∀ w, getWebviewWindow reg dragLabel = some w → env.destroyResult = none →
      destroy_drag_window env reg = (Except.ok (), removeWindow reg dragLabel)) := by
  refine ⟨fun h => destroy_none env reg h, fun w e hl he => ?_, fun w hl he => destroy_ok env reg w hl he⟩
  rw [destroy_err env reg w e hl he]

/-- C2 witness: the amended theorem applied at one concrete failing teardown
and at one concrete empty registry. -/
theorem c2_destroy_error_surfaced_witness :
    (destroy_drag_window ⟨some "boom"⟩ [builtWindow 0 0 100 36]).1 = Except.error "boom" ∧
    destroy_drag_window ⟨none⟩ [] = (Except.ok (), []) :=
  ⟨(c2_destroy_error_surfaced ⟨some "boom"⟩ [builtWindow 0 0 100 36]).2.1
      (builtWindow 0 0 100 36) "boom" rfl rfl,
    (c2_destroy_error_surfaced ⟨none⟩ []).1 rfl⟩

/-- C5: `update_drag_window_position` with no overlay window is a successful
no-op — it returns `Ok` and leaves the host registry untouched; when the
window does exist and the host rejects `set_position` with diagnostic `e`,
that error is returned to the caller. -/
theorem c5_reposition_absent_noop (env : MoveEnv) (reg : Registry) (x y : ℚ) :
    (getWebviewWindow reg dragLabel = none →
      update_drag_window_position env reg x y = (Except.ok (), reg)) ∧
    (∀ w e, getWebviewWindow reg dragLabel = some w → env.moveResult = some e →
      (update_drag_window_position env reg x y).1 = Except.error e) := by
  refine ⟨fun h => update_none env reg x y h, fun w e hl hm => ?_⟩
  rw [update_err env reg x y w e hl hm]

/-- C5 witness: reposition of an absent overlay at `(7, 9)` succeeds and
changes nothing; reposition rejected by the host surfaces `"move failed"`. -/
theorem c5_reposition_absent_noop_witness :
    update_drag_window_position ⟨some (0, 36), none⟩ [] 7 9 = (Except.ok (), []) ∧
    (update_drag_window_position ⟨none, some "move failed"⟩ [builtWindow 0 0 100 36] 7 9).1
      = Except.error "move failed" :=
  ⟨(c5_reposition_absent_noop ⟨some (0, 36), none⟩ [] 7 9).1 rfl,
    (c5_reposition_absent_noop ⟨none, some "move failed"⟩ [builtWindow 0 0 100 36] 7 9).2
      (builtWindow 0 0 100 36) "move failed" rfl rfl⟩

/-- C7, counterexample: "after destroy returns, no overlay window exists"
fails when the host rejects the teardown. With one live overlay window and
`window.destroy()` failing with `"teardown failed"`, `destroy_drag_window`
returns (with that error) while the overlay window is still registered. -/
theorem c7_counterexample :
    destroy_drag_window ⟨some "teardown failed"⟩ [builtWindow 5 5 80 30]
        = (Except.error "teardown failed", [builtWindow 5 5 80 30]) ∧
      overlayCount [builtWindow 5 5 80 30] = 1 := ⟨rfl, rfl⟩

/-- C7 (amended): teardown is idempotent — `destroy_drag_window` on the
absent state does not error and leaves the state unchanged, and under a fixed
host behaviour calling it twice in a row produces exactly the result and
state of calling it once; and after `destroy_drag_window` returns
*successfully*, no overlay window exists (after a failed teardown the window
may remain, see the counterexample). -/
theorem c7_idempotent_teardown (env : DestroyEnv) (reg : Registry) :
    (getWebviewWindow reg dragLabel = none →
      destroy_drag_window env reg = (Except.ok (), reg)) ∧
    destroy_drag_window env (destroy_drag_window env reg).2 = destroy_drag_window env reg ∧
    ((destroy_drag_window env reg).1 = Except.ok () →
      overlayCount (destroy_drag_window env reg).2 = 0) := by
  refine ⟨fun h => destroy_none env reg h, destroy_twice env reg, fun hok => ?_⟩
  cases hl : getWebviewWindow reg dragLabel with
  | none =>
    rw [destroy_none env reg hl]
    exact overlayCount_eq_zero_of_none reg hl
  | some w =>
    cases he : env.destroyResult with
    | some e => rw [destroy_err env reg w e hl he] at hok; cases hok
    | none =>
      rw [destroy_ok env reg w hl he]
      exact overlayCount_removeWindow reg

/-- C7 witness: destroying twice with a cooperating host equals destroying
once, a successful destroy leaves zero overlay windows, and destroying the
absent state is a success that changes nothing. -/
theorem c7_idempotent_teardown_witness :
    destroy_drag_window ⟨none⟩ [] = (Except.ok (), []) ∧
    destroy_drag_window ⟨none⟩ (destroy_drag_window ⟨none⟩ [builtWindow 5 5 80 30]).2
        = destroy_drag_window ⟨none⟩ [builtWindow 5 5 80 30] ∧
    overlayCount (destroy_drag_window ⟨none⟩ [builtWindow 5 5 80 30]).2 = 0 :=
  ⟨(c7_idempotent_teardown ⟨none⟩ []).1 rfl,
    (c7_idempotent_teardown ⟨none⟩ [builtWindow 5 5 80 30]).2.1,
    (c7_idempotent_teardown ⟨none⟩ [builtWindow 5 5 80 30]).2.2 rfl⟩

/-- C3: the positioning law. A successful
`create_drag_window(content, x, y, width, height)` leaves the overlay window
with top-left `(x - 20, y - height/2)` in logical units; a successful
`update_drag_window_position(x2, y2)` on an existing overlay window whose
observed outer height is `h'` (the second component of
`window.outer_size()`, with `(0, 36)` — so height 36 — as the fallback when
the size cannot be read) moves its top-left to `(x2 - 20, y2 - h'/2)`. -/
theorem c3_positioning_law (env : CreateEnv) (reg : Registry) (content : String)
    (x y width height : ℚ) (menv : MoveEnv) (mreg : Registry) (x2 y2 : ℚ) :
    ((create_drag_window env reg content x y width height).1 = Except.ok () →
      ∃ win, getWebviewWindow (create_drag_window env reg content x y width height).2 dragLabel
            = some win ∧
          win.pos = (x - 20, y - height / 2)) ∧
    (∀ w, getWebviewWindow mreg dragLabel = some w →
      (update_drag_window_position menv mreg x2 y2).1 = Except.ok () →
      ∃ win, getWebviewWindow (update_drag_window_position menv mreg x2 y2).2 dragLabel
            = some win ∧
          win.pos = (x2 - 20, y2 - ((menv.outerSize.getD (0, 36)).2 : ℚ) / 2)) := by
  constructor
  · intro hok
    exact ⟨finalWindow content x y width height,
      (create_ok_state env reg content x y width height hok).1, rfl⟩
  · intro w hl hok
    cases hm : menv.moveResult with
    | some e => rw [update_err menv mreg x2 y2 w e hl hm] at hok; cases hok
    | none =>
      rw [update_ok menv mreg x2 y2 w hl hm]
      refine ⟨{ w with pos := (x2 - 20, y2 - ((menv.outerSize.getD (0, 36)).2 : ℚ) / 2) }, ?_, rfl⟩
      exact getWebviewWindow_setWindow_some mreg _ w hl (label_of_lookup mreg dragLabel w hl)

/-- C3 witness: creating at `(100, 200)` with size `120×40` puts the window
at `(80, 180)`; repositioning to `(30, 40)` a window whose observed outer
height is 50 puts it at `(10, 15)`. -/
theorem c3_positioning_law_witness :
    (∃ win, getWebviewWindow
          (create_drag_window ⟨true, none, none, none, none⟩ [] "A" 100 200 120 40).2 dragLabel
        = some win ∧ win.pos = ((100 : ℚ) - 20, (200 : ℚ) - 40 / 2)) ∧
    (∃ win, getWebviewWindow
          (update_drag_window_position ⟨some (120, 50), none⟩ [builtWindow 0 0 100 36] 30 40).2
          dragLabel
        = some win ∧
        win.pos = ((30 : ℚ) - 20, (40 : ℚ) - (((((⟨some (120, 50), none⟩ : MoveEnv)).outerSize.getD (0, 36)).2 : ℚ)) / 2)) :=
  ⟨(c3_positioning_law ⟨true, none, none, none, none⟩ [] "A" 100 200 120 40
      ⟨some (120, 50), none⟩ [builtWindow 0 0 100 36] 30 40).1 rfl,
    (c3_positioning_law ⟨true, none, none, none, none⟩ [] "A" 100 200 120 40
      ⟨some (120, 50), none⟩ [builtWindow 0 0 100 36] 30 40).2 (builtWindow 0 0 100 36) rfl rfl⟩

/-- C6: the frame property of reposition. On an existing overlay window `w`
(in a registry with at most one overlay window), `update_drag_window_position`
leaves the registry equal to `setWindow reg dragLabel { w with pos := p }`
for some position `p`: every attribute of the overlay window other than its
position — size, rendered content, flags — is unchanged, and no other window
is touched. The overlay window is still registered afterwards. -/
theorem c6_reposition_frame (env : MoveEnv) (reg : Registry) (x y : ℚ) (w : WindowState)
    (hc : overlayCount reg ≤ 1) (hl : getWebviewWindow reg dragLabel = some w) :
    ∃ p, (update_drag_window_position env reg x y).2
          = setWindow reg dragLabel { w with pos := p } ∧
        getWebviewWindow (update_drag_window_position env reg x y).2 dragLabel
          = some { w with pos := p } := by
  cases hm : env.moveResult with
  | some e =>
    refine ⟨w.pos, ?_, ?_⟩
    · rw [update_err env reg x y w e hl hm]
      exact (setWindow_self reg w hc hl).symm
    · rw [update_err env reg x y w e hl hm]
      exact hl
  | none =>
    refine ⟨(x - 20, y - ((env.outerSize.getD (0, 36)).2 : ℚ) / 2), ?_, ?_⟩
    · rw [update_ok env reg x y w hl hm]
    · rw [update_ok env reg x y w hl hm]
      exact getWebviewWindow_setWindow_some reg _ w hl (label_of_lookup reg dragLabel w hl)

/-- C6 witness: the frame property at a concrete window and move. -/
theorem c6_reposition_frame_witness :
    ∃ p, (update_drag_window_position ⟨some (100, 50), none⟩ [builtWindow 0 0 100 36] 30 40).2
          = setWindow [builtWindow 0 0 100 36] dragLabel { builtWindow 0 0 100 36 with pos := p } ∧
        getWebviewWindow
            (update_drag_window_position ⟨some (100, 50), none⟩ [builtWindow 0 0 100 36] 30 40).2
            dragLabel
          = some { builtWindow 0 0 100 36 with pos := p } :=
  c6_reposition_frame ⟨some (100, 50), none⟩ [builtWindow 0 0 100 36] 30 40
    (builtWindow 0 0 100 36) (by decide) rfl

/-- C1, counterexample: the surviving window need not reflect the most recent
*successful* create. A first create of `"A"` (size `100×36`) succeeds; a
second create of `"B"` (size `120×40`) destroys `"A"` and fails only at the
final `show()`. The most recent successful create is the `"A"` call, yet the
surviving overlay window has the `"B"` call's size `120×40`. -/
theorem c1_counterexample :
    (create_drag_window ⟨true, none, none, none, none⟩ [] "A" 0 0 100 36).1
        = Except.ok () ∧
      (create_drag_window ⟨true, none, none, none, some "show failed"⟩
          (runCreates [] [⟨⟨true, none, none, none, none⟩, "A", 0, 0, 100, 36⟩])
          "B" 10 10 120 40).1 = Except.error "show failed" ∧
      (getWebviewWindow
          (runCreates [] [⟨⟨true, none, none, none, none⟩, "A", 0, 0, 100, 36⟩,
            ⟨⟨true, none, none, none, some "show failed"⟩, "B", 10, 10, 120, 40⟩])
          dragLabel).map (fun w => w.innerSize) = some ((120 : ℚ), (40 : ℚ)) ∧
      ((120 : ℚ), (40 : ℚ)) ≠ ((100 : ℚ), (36 : ℚ)) :=
  ⟨rfl, rfl, rfl, by decide⟩

/-- C1 (amended): singleton slot. Starting from a registry with at most one
overlay window, after any sequence of `create_drag_window` calls at most one
window labelled `"drag-overlay"` exists; and when the final create call
succeeds, the surviving overlay window is exactly the fully configured window
of that call's parameters (a later create that fails after building may
instead leave a hidden window with the *failed* call's parameters, so "most
recent successful create" holds only when the most recent create succeeded). -/
theorem c1_singleton_last_create_wins (reg : Registry) (calls : List CreateCall)
    (c : CreateCall) (hc : overlayCount reg ≤ 1) :
    overlayCount (runCreates reg calls) ≤ 1 ∧
      ((create_drag_window c.env (runCreates reg calls) c.content c.x c.y c.width c.height).1
          = Except.ok () →
        getWebviewWindow (runCreates reg (calls ++ [c])) dragLabel
            = some (finalWindow c.content c.x c.y c.width c.height) ∧
          overlayCount (runCreates reg (calls ++ [c])) = 1) := by
  refine ⟨overlayCount_runCreates_le calls reg hc, fun hok => ?_⟩
  have hr : runCreates reg (calls ++ [c]) = runCreate (runCreates reg calls) c := by
    unfold runCreates
    rw [List.foldl_append]
    rfl
  rw [hr]
  exact create_ok_state c.env (runCreates reg calls) c.content c.x c.y c.width c.height hok

/-- C1 witness: one successful create on the empty registry leaves exactly
one overlay window, carrying that call's parameters. -/
theorem c1_singleton_last_create_wins_witness :
    overlayCount (runCreates [] []) ≤ 1 ∧
      ((create_drag_window (⟨true, none, none, none, none⟩ : CreateEnv) (runCreates [] [])
          "A" 100 200 120 40).1 = Except.ok () →
        getWebviewWindow
            (runCreates [] ([] ++ [⟨⟨true, none, none, none, none⟩, "A", 100, 200, 120, 40⟩]))
            dragLabel = some (finalWindow "A" 100 200 120 40) ∧
          overlayCount
            (runCreates [] ([] ++ [⟨⟨true, none, none, none, none⟩, "A", 100, 200, 120, 40⟩]))
            = 1) :=
  c1_singleton_last_create_wins [] [] ⟨⟨true, none, none, none, none⟩, "A", 100, 200, 120, 40⟩
    (by decide)

/-- C4: `create_drag_window` returns an error exactly when one of the host
interactions fails — building/positioning/configuring the window (one
builder `build()` call), enabling click-through, rendering the content, or
showing the window — and the error returned is that host call's diagnostic
text; when window creation itself (`build()`) is rejected, no window at all
is registered under the `"drag-overlay"` identifier afterwards. Stated for
any starting registry in which the pre-destroy step can actually vacate the
slot (no pre-existing overlay, or the ignored `existing.destroy()` succeeds);
otherwise Tauri additionally refuses the duplicate label, which is still an
error outcome. -/
theorem c4_create_error_iff (env : CreateEnv) (reg : Registry) (content : String)
    (x y width height : ℚ)
    (hpre : getWebviewWindow reg dragLabel = none ∨ env.preDestroyOk = true) :
    ((create_drag_window env reg content x y width height).1 = Except.ok () ↔
        env.buildResult = none ∧ env.ignoreCursorResult = none ∧
          env.evalResult = none ∧ env.showResult = none) ∧
      (∀ e, env.buildResult = some e →
        (create_drag_window env reg content x y width height).1 = Except.error e ∧
          getWebviewWindow (create_drag_window env reg content x y width height).2 dragLabel
            = none) ∧
      (∀ e, env.buildResult = none → env.ignoreCursorResult = some e →
        (create_drag_window env reg content x y width height).1 = Except.error e) ∧
      (∀ e, env.buildResult = none → env.ignoreCursorResult = none →
        env.evalResult = some e →
        (create_drag_window env reg content x y width height).1 = Except.error e) ∧
      (∀ e, env.buildResult = none → env.ignoreCursorResult = none →
        env.evalResult = none → env.showResult = some e →
        (create_drag_window env reg content x y width height).1 = Except.error e) := by
  obtain ⟨reg1, h1, heq⟩ := create_reduce env reg content x y width height hpre
  rw [heq]
  refine ⟨⟨?_, ?_⟩, ?_, ?_, ?_, ?_⟩
  · intro hok
    cases hb : env.buildResult with
    | some e => rw [create_build_err env reg1 content x y width height e h1 hb] at hok; cases hok
    | none =>
    cases hi : env.ignoreCursorResult with
    | some e =>
      rw [create_ignore_err env reg1 content x y width height e h1 hb hi] at hok; cases hok
    | none =>
    cases he : env.evalResult with
    | some e =>
      rw [create_eval_err env reg1 content x y width height e h1 hb hi he] at hok; cases hok
    | none =>
    cases hs : env.showResult with
    | some e =>
      rw [create_show_err env reg1 content x y width height e h1 hb hi he hs] at hok; cases hok
    | none => exact ⟨rfl, rfl, rfl, rfl⟩
  · rintro ⟨hb, hi, he, hs⟩
    rw [create_ok env reg1 content x y width height h1 hb hi he hs]
  · intro e hb
    rw [create_build_err env reg1 content x y width height e h1 hb]
    exact ⟨rfl, h1⟩
  · intro e hb hi
    rw [create_ignore_err env reg1 content x y width height e h1 hb hi]
  · intro e hb hi he
    rw [create_eval_err env reg1 content x y width height e h1 hb hi he]
  · intro e hb hi he hs
    rw [create_show_err env reg1 content x y width height e h1 hb hi he hs]

/-- C4 witness: a rejected `build()` surfaces the toolkit's diagnostic and
leaves no overlay window registered; with every host call succeeding the
command returns `Ok`. -/
theorem c4_create_error_iff_witness :
    ((create_drag_window ⟨true, some "creation rejected", none, none, none⟩ [] "A" 1 2 3 4).1
          = Except.error "creation rejected" ∧
        getWebviewWindow
            (create_drag_window ⟨true, some "creation rejected", none, none, none⟩
              [] "A" 1 2 3 4).2 dragLabel = none) ∧
      (create_drag_window ⟨true, none, none, none, none⟩ [] "A" 1 2 3 4).1 = Except.ok () :=
  ⟨(c4_create_error_iff ⟨true, some "creation rejected", none, none, none⟩ [] "A" 1 2 3 4
        (Or.inl rfl)).2.1 "creation rejected" rfl,
    ((c4_create_error_iff ⟨true, none, none, none, none⟩ [] "A" 1 2 3 4
        (Or.inl rfl)).1.mpr ⟨rfl, rfl, rfl, rfl⟩)⟩

/-- C8: every successfully created overlay window carries the full builder
configuration — no decorations, transparent with a fully transparent
`(0,0,0,0)` background colour, no shadow, always on top, skipped in the
taskbar/app-switcher, non-resizable, never initially focused — plus
click-through (`set_ignore_cursor_events(true)`) and the injected content
script, and is visible; and in every failed outcome (the window having been
built hidden), whatever overlay window is registered is still invisible: the
window is shown only after configuration and content injection completed. -/
theorem c8_window_flags (env : CreateEnv) (reg : Registry) (content : String)
    (x y width height : ℚ) (h : getWebviewWindow reg dragLabel = none) :
    ((create_drag_window env reg content x y width height).1 = Except.ok () →
      ∃ win, getWebviewWindow (create_drag_window env reg content x y width height).2 dragLabel
            = some win ∧
          win.decorations = false ∧ win.transparent = true ∧ win.shadow = false ∧
          win.backgroundColor = (0, 0, 0, 0) ∧ win.alwaysOnTop = true ∧
          win.skipTaskbar = true ∧ win.resizable = false ∧ win.focused = false ∧
          win.ignoreCursorEvents = true ∧
          win.injectedScript = some (evalScript (dragHtml content)) ∧ win.visible = true) ∧
    ((create_drag_window env reg content x y width height).1 ≠ Except.ok () →
      ∀ win, getWebviewWindow (create_drag_window env reg content x y width height).2 dragLabel
          = some win → win.visible = false) := by
  constructor
  · intro hok
    rw [create_ok_eq_of_none env reg content x y width height h hok]
    exact ⟨finalWindow content x y width height,
      getWebviewWindow_append_single reg _ h (finalWindow_label content x y width height),
      rfl, rfl, rfl, rfl, rfl, rfl, rfl, rfl, rfl, rfl, rfl⟩
  · intro hfail win hwin
    cases hb : env.buildResult with
    | some e =>
      rw [create_build_err env reg content x y width height e h hb, h] at hwin
      cases hwin
    | none =>
    cases hi : env.ignoreCursorResult with
    | some e =>
      rw [create_ignore_err env reg content x y width height e h hb hi,
        getWebviewWindow_append_single reg _ h (builtWindow_label x y width height)] at hwin
      rw [← Option.some.inj hwin]
      rfl
    | none =>
    cases he : env.evalResult with
    | some e =>
      rw [create_eval_err env reg content x y width height e h hb hi he,
        getWebviewWindow_append_single reg _ h (cursorWindow_label x y width height)] at hwin
      rw [← Option.some.inj hwin]
      rfl
    | none =>
    cases hs : env.showResult with
    | some e =>
      rw [create_show_err env reg content x y width height e h hb hi he hs,
        getWebviewWindow_append_single reg _ h
          (injectedWindow_label content x y width height)] at hwin
      rw [← Option.some.inj hwin]
      rfl
    | none =>
      rw [create_ok env reg content x y width height h hb hi he hs] at hfail
      exact absurd rfl hfail

/-- C8 witness: the flag bundle at one concrete successful create, and the
hidden residue when the final `show()` is rejected. -/
theorem c8_window_flags_witness :
    (∃ win, getWebviewWindow
          (create_drag_window ⟨true, none, none, none, none⟩ [] "A" 100 200 120 40).2 dragLabel
        = some win ∧
        win.decorations = false ∧ win.transparent = true ∧ win.shadow = false ∧
        win.backgroundColor = (0, 0, 0, 0) ∧ win.alwaysOnTop = true ∧
        win.skipTaskbar = true ∧ win.resizable = false ∧ win.focused = false ∧
        win.ignoreCursorEvents = true ∧
        win.injectedScript = some (evalScript (dragHtml "A")) ∧ win.visible = true) ∧
    (∀ win, getWebviewWindow
          (create_drag_window ⟨true, none, none, none, some "show failed"⟩ [] "A" 100 200 120 40).2
          dragLabel = some win → win.visible = false) :=
  ⟨(c8_window_flags ⟨true, none, none, none, none⟩ [] "A" 100 200 120 40 rfl).1 rfl,
    (c8_window_flags ⟨true, none, none, none, some "show failed"⟩ [] "A" 100 200 120 40 rfl).2
      (by intro hcon; cases hcon)⟩

/-- C9: the caller-supplied `content` is embedded verbatim into the rendered
markup. The HTML handed to the content-injection script is literally the
fixed template half before the card's content span, then `content` unchanged
— no HTML escaping or quoting applied to any of its characters — then the
fixed closing half; and a successful create installs exactly that HTML
(wrapped in the `document.write` script) into the overlay window. -/
theorem c9_unescaped_content (env : CreateEnv) (reg : Registry) (content : String)
    (x y width height : ℚ) :
    dragHtml content = htmlBefore ++ content ++ htmlAfter ∧
      ((create_drag_window env reg content x y width height).1 = Except.ok () →
        ∃ win, getWebviewWindow (create_drag_window env reg content x y width height).2
              dragLabel = some win ∧
            win.injectedScript = some (evalScript (htmlBefore ++ content ++ htmlAfter))) := by
  refine ⟨rfl, fun hok => ?_⟩
  exact ⟨finalWindow content x y width height,
    (create_ok_state env reg content x y width height hok).1, rfl⟩

/-- C9 witness: markup-sensitive caller text (`<`, `>`, `&`, quotes) goes
into the markup character-for-character. -/
theorem c9_unescaped_content_witness :
    dragHtml "<script>alert(1)</script> & \"quotes\""
        = htmlBefore ++ "<script>alert(1)</script> & \"quotes\"" ++ htmlAfter ∧
      ∃ win, getWebviewWindow
            (create_drag_window ⟨true, none, none, none, none⟩ []
              "<script>alert(1)</script> & \"quotes\"" 0 0 100 36).2 dragLabel = some win ∧
          win.injectedScript
            = some (evalScript (htmlBefore ++ "<script>alert(1)</script> & \"quotes\"" ++ htmlAfter)) :=
  ⟨(c9_unescaped_content ⟨true, none, none, none, none⟩ []
      "<script>alert(1)</script> & \"quotes\"" 0 0 100 36).1,
    (c9_unescaped_content ⟨true, none, none, none, none⟩ []
      "<script>alert(1)</script> & \"quotes\"" 0 0 100 36).2 rfl⟩

/-- C10 (implicit): when `create_drag_window` fails after the window was
built (click-through, content-injection `eval`, or the final `show` is
rejected), the command errors but a still-hidden window remains registered
under `"drag-overlay"` — the state is not rolled back — and a subsequent
successful `destroy_drag_window` or a subsequent all-successful
`create_drag_window` removes or replaces that residue. -/
theorem c10_partial_residue (env : CreateEnv) (reg : Registry) (content : String)
    (x y width height : ℚ)
    (h : getWebviewWindow reg dragLabel = none)
    (hb : env.buildResult = none)
    (hfail : (create_drag_window env reg content x y width height).1 ≠ Except.ok ()) :
    (∃ win, getWebviewWindow (create_drag_window env reg content x y width height).2 dragLabel
          = some win ∧ win.visible = false) ∧
      destroy_drag_window ⟨none⟩ (create_drag_window env reg content x y width height).2
          = (Except.ok (),
            removeWindow (create_drag_window env reg content x y width height).2 dragLabel) ∧
      overlayCount
          (removeWindow (create_drag_window env reg content x y width height).2 dragLabel)
        = 0 ∧
      (∀ env2 content2 x2 y2 width2 height2, env2.preDestroyOk = true →
        env2.buildResult = none → env2.ignoreCursorResult = none →
        env2.evalResult = none → env2.showResult = none →
        (create_drag_window env2 (create_drag_window env reg content x y width height).2
            content2 x2 y2 width2 height2).1 = Except.ok ()) := by
  have key : ∃ X, (create_drag_window env reg content x y width height).2 = reg ++ [X] ∧
      X.label = dragLabel ∧ X.visible = false := by
    cases hi : env.ignoreCursorResult with
    | some e =>
      rw [create_ignore_err env reg content x y width height e h hb hi]
      exact ⟨builtWindow x y width height, rfl, rfl, rfl⟩
    | none =>
    cases he : env.evalResult with
    | some e =>
      rw [create_eval_err env reg content x y width height e h hb hi he]
      exact ⟨cursorWindow x y width height, rfl, rfl, rfl⟩
    | none =>
    cases hs : env.showResult with
    | some e =>
      rw [create_show_err env reg content x y width height e h hb hi he hs]
      exact ⟨injectedWindow content x y width height, rfl, rfl, rfl⟩
    | none =>
      rw [create_ok env reg content x y width height h hb hi he hs] at hfail
      exact absurd rfl hfail
  obtain ⟨X, hst, hXl, hXv⟩ := key
  have hlook : getWebviewWindow (create_drag_window env reg content x y width height).2 dragLabel
      = some X := by
    rw [hst]
    exact getWebviewWindow_append_single reg X h hXl
  refine ⟨⟨X, hlook, hXv⟩, destroy_ok ⟨none⟩ _ X hlook rfl, overlayCount_removeWindow _, ?_⟩
  intro env2 content2 x2 y2 width2 height2 hp hb2 hi2 he2 hs2
  rw [create_of_predestroy env2 _ content2 x2 y2 width2 height2 X hlook hp,
    create_ok env2 _ content2 x2 y2 width2 height2
      (getWebviewWindow_removeWindow _ dragLabel) hb2 hi2 he2 hs2]

/-- C10 witness: a create whose content-injection `eval` is rejected leaves a
hidden `"drag-overlay"` window behind; a successful destroy then leaves no
overlay window, and a fresh all-successful create succeeds. -/
theorem c10_partial_residue_witness :
    (∃ win, getWebviewWindow
          (create_drag_window ⟨true, none, none, some "eval failed", none⟩ [] "A" 0 0 100 36).2
          dragLabel = some win ∧ win.visible = false) ∧
      destroy_drag_window ⟨none⟩
          (create_drag_window ⟨true, none, none, some "eval failed", none⟩ [] "A" 0 0 100 36).2
        = (Except.ok (),
          removeWindow
            (create_drag_window ⟨true, none, none, some "eval failed", none⟩ [] "A" 0 0 100 36).2
            dragLabel) ∧
      overlayCount
          (removeWindow
            (create_drag_window ⟨true, none, none, some "eval failed", none⟩ [] "A" 0 0 100 36).2
            dragLabel) = 0 ∧
      (∀ env2 content2 x2 y2 width2 height2, env2.preDestroyOk = true →
        env2.buildResult = none → env2.ignoreCursorResult = none →
        env2.evalResult = none → env2.showResult = none →
        (create_drag_window env2
            (create_drag_window ⟨true, none, none, some "eval failed", none⟩ [] "A" 0 0 100 36).2
            content2 x2 y2 width2 height2).1 = Except.ok ()) :=
  c10_partial_residue ⟨true, none, none, some "eval failed", none⟩ [] "A" 0 0 100 36
    rfl rfl (by intro hcon; cases hcon)
